import Mathlib

/-!
Shallow embedding of the Windows platform reconciler of
azure-container-networking (platform/os_windows.go, refactored version):
the Mellanox PriorityVLANTag reconciliation logic, its monitor loop, the
one-shot SDNRemoteArpMacAddress setter, and the two command executors.

PowerShell execution is abstracted as a function from the literal command
string to either an error or the (trimmed) output, matching the proven
contract of ExecutePowershellCommand.  Each embedded function additionally
returns the list of commands it issued, in order; a trace entry is a
structured `PSCmd` whose `cmdString` is exactly the string the Go code
builds with fmt.Sprintf and passes to ExecutePowershellCommand.
-/

namespace AzureCN

/-- Search string to find adapter having Mellanox in description. -/
def mellanoxSearchString : String := "*Mellanox*"

/-- PriorityVlanTag reg key for adapter. -/
def priorityVLANTagIdentifier : String := "*PriorityVLANTag"

/-- Registry key Path Prefix. -/
def registryKeyPrefix : String := "HKLM:\\System\\CurrentControlSet\\Control\\Class\\"

/-- Value for reg key PriorityVLANTag (3 = packet priority and VLAN enabled). -/
def desiredRegValueForVLANTag : Int := 3

/-- One second expressed in the units of Go's time.Duration (nanoseconds). -/
def oneSecond : Int := 1000000000

/-- Interval between successive checks for the adapter's PriorityVLANTag value. -/
def defaultMellanoxMonitorInterval : Int := 30 * oneSecond

/-- The registry value for the remote arp mac address. -/
def SDNRemoteArpMacAddress : String := "12-34-56-78-9a-bc"

/-- Command to get SDNRemoteArpMacAddress registry key. -/
def GetSdnRemoteArpMacAddressCommand : String :=
  "(Get-ItemProperty -Path HKLM:\\SYSTEM\\CurrentControlSet\\Services\\hns\\State -Name SDNRemoteArpMacAddress).SDNRemoteArpMacAddress"

/-- Command to set SDNRemoteArpMacAddress registry key. -/
def SetSdnRemoteArpMacAddressCommand : String :=
  "Set-ItemProperty -Path HKLM:\\SYSTEM\\CurrentControlSet\\Services\\hns\\State -Name SDNRemoteArpMacAddress -Value \"12-34-56-78-9a-bc\""

/-- Command to restart HNS service. -/
def RestartHnsServiceCommand : String := "Restart-Service -Name hns"

/-- The PowerShell commands the reconciler can issue, as structured data;
`cmdString` renders each to the exact string the Go code builds. -/
inductive PSCmd where
  | getNetAdapter
  | getAdvProp (adapterName : String)
  | getAdvPropValue (adapterName : String)
  | setAdvProp (adapterName : String)
  | getCimDeviceId
  | getPnpDeviceProperty (deviceid : String)
  | getItemProperty (registryKeyFullPath : String)
  | newItemProperty (registryKeyFullPath : String)
  | restartNetAdapter (adapterName : String)
  | getSdnRemoteArpMacAddr
  | setSdnRemoteArpMacAddr
  | restartHnsService
  deriving DecidableEq

/-- The literal command string each `PSCmd` stands for, built from the same
fmt.Sprintf templates as the source. -/
def cmdString : PSCmd → String
  | PSCmd.getNetAdapter =>
      "Get-NetAdapter | Where-Object \x7b $_.InterfaceDescription -like \"" ++ mellanoxSearchString
        ++ "\" \x7d | Select-Object -ExpandProperty Name"
  | PSCmd.getAdvProp adapterName =>
      "Get-NetAdapterAdvancedProperty | Where-Object \x7b $_.RegistryKeyword -like \""
        ++ priorityVLANTagIdentifier ++ "\" -and $_.Name -eq \"" ++ adapterName
        ++ "\" \x7d | Select-Object -ExpandProperty Name"
  | PSCmd.getAdvPropValue adapterName =>
      "Get-NetAdapterAdvancedProperty | Where-Object \x7b $_.RegistryKeyword -like \""
        ++ priorityVLANTagIdentifier ++ "\" -and $_.Name -eq \"" ++ adapterName
        ++ "\" \x7d | Select-Object -ExpandProperty RegistryValue"
  | PSCmd.setAdvProp adapterName =>
      "Set-NetAdapterAdvancedProperty -Name \"" ++ adapterName ++ "\" -RegistryKeyword \""
        ++ priorityVLANTagIdentifier ++ "\" -RegistryValue " ++ toString desiredRegValueForVLANTag
  | PSCmd.getCimDeviceId =>
      "Get-CimInstance -Namespace root/cimv2 -ClassName Win32_PNPEntity | Where-Object PNPClass -EQ \"Net\" | Where-Object \x7b $_.Name -like \""
        ++ mellanoxSearchString ++ "\" \x7d | Select-Object -ExpandProperty DeviceID"
  | PSCmd.getPnpDeviceProperty deviceid =>
      "Get-PnpDeviceProperty -InstanceId \"" ++ deviceid
        ++ "\" | Where-Object KeyName -EQ \"DEVPKEY_Device_Driver\" | Select-Object -ExpandProperty Data"
  | PSCmd.getItemProperty registryKeyFullPath =>
      "Get-ItemProperty -Path \"" ++ registryKeyFullPath ++ "\" -Name \""
        ++ priorityVLANTagIdentifier ++ "\" | Select-Object -ExpandProperty \""
        ++ priorityVLANTagIdentifier ++ "\""
  | PSCmd.newItemProperty registryKeyFullPath =>
      "New-ItemProperty -Path \"" ++ registryKeyFullPath ++ "\" -Name \""
        ++ priorityVLANTagIdentifier ++ "\" -Value " ++ toString desiredRegValueForVLANTag
        ++ " -PropertyType String -Force"
  | PSCmd.restartNetAdapter adapterName =>
      "Restart-NetAdapter -Name \"" ++ adapterName ++ "\""
  | PSCmd.getSdnRemoteArpMacAddr => GetSdnRemoteArpMacAddressCommand
  | PSCmd.setSdnRemoteArpMacAddr => SetSdnRemoteArpMacAddressCommand
  | PSCmd.restartHnsService => RestartHnsServiceCommand

/-- Abstract PowerShell boundary: a command string is answered with either an
error (non-nil Go error) or an output string (the trimmed stdout). -/
def PSExec : Type := String → Except String String

/-- getMellanoxAdapterName: resolve the Mellanox adapter name by description
filter; empty output is turned into a "no network adapter found" error. -/
def getMellanoxAdapterName (E : PSExec) : Except String String × List PSCmd :=
  match E (cmdString PSCmd.getNetAdapter) with
  | Except.error e =>
      (Except.error ("error while executing powershell command to get net adapter list: " ++ e),
       [PSCmd.getNetAdapter])
  | Except.ok adapterName =>
      if adapterName = "" then
        (Except.error ("no network adapter found with " ++ mellanoxSearchString ++ " in description"),
         [PSCmd.getNetAdapter])
      else
        (Except.ok adapterName, [PSCmd.getNetAdapter])

/-- Digit accumulator for `atoi` (strconv.Atoi's digit loop). -/
def atoiNatAux : List Char → Nat → Option Nat
  | [], acc => some acc
  | c :: rest, acc =>
      if c.isDigit then atoiNatAux rest (acc * 10 + (c.toNat - ('0').toNat)) else none

/-- Parse a non-empty run of decimal digits (strconv.Atoi's unsigned case). -/
def atoiNat : List Char → Option Nat
  | [] => none
  | l => atoiNatAux l 0

/-- strconv.Atoi: parse an optionally signed decimal integer; anything else
is a parse error (none). -/
def atoi (s : String) : Option Int :=
  match s.data with
  | ('-') :: rest => (atoiNat rest).map (fun m => -(m : Int))
  | ('+') :: rest => (atoiNat rest).map (fun m => (m : Int))
  | l => (atoiNat l).map (fun m => (m : Int))

/-- getMellanoxPriorityVLANTagValueForV4: query the adapter's advanced
property RegistryValue and parse it as an integer (strconv.Atoi). -/
def getMellanoxPriorityVLANTagValueForV4 (E : PSExec) (adapterName : String) :
    Except String Int × List PSCmd :=
  match E (cmdString (PSCmd.getAdvPropValue adapterName)) with
  | Except.error e => (Except.error e, [PSCmd.getAdvPropValue adapterName])
  | Except.ok regvalue =>
      match atoi regvalue with
      | none =>
          (Except.error ("failed to convert PriorityVLANTag value to integer"),
           [PSCmd.getAdvPropValue adapterName])
      | some intValue => (Except.ok intValue, [PSCmd.getAdvPropValue adapterName])

/-- getMellanoxPriorityVLANTagValueForV3: query the registry value at the
assembled path and parse it as an integer (strconv.Atoi). -/
def getMellanoxPriorityVLANTagValueForV3 (E : PSExec)
    (registryKeyFullPath adapterName : String) : Except String Int × List PSCmd :=
  match E (cmdString (PSCmd.getItemProperty registryKeyFullPath)) with
  | Except.error e => (Except.error e, [PSCmd.getItemProperty registryKeyFullPath])
  | Except.ok regvalue =>
      match atoi regvalue with
      | none =>
          (Except.error ("failed to convert PriorityVLANTag value to integer"),
           [PSCmd.getItemProperty registryKeyFullPath])
      | some intValue => (Except.ok intValue, [PSCmd.getItemProperty registryKeyFullPath])

/-- setMellanoxPriorityVLANTagValueForV4: the direct-property convergence
action (adapter generation 4 and up). -/
def setMellanoxPriorityVLANTagValueForV4 (E : PSExec) (adapterName : String) :
    Except String Unit × List PSCmd :=
  match getMellanoxPriorityVLANTagValueForV4 E adapterName with
  | (Except.error e, t) =>
      (Except.error ("error while checking registry value for PriorityVLANTag for adapter: " ++ e), t)
  | (Except.ok currentVLANTagValue, t) =>
      if currentVLANTagValue = desiredRegValueForVLANTag then
        (Except.ok (), t)
      else
        match E (cmdString (PSCmd.setAdvProp adapterName)) with
        | Except.error e =>
            (Except.error ("error while setting up registry value for PriorityVLANTag for adapter: " ++ e),
             t ++ [PSCmd.setAdvProp adapterName])
        | Except.ok _ => (Except.ok (), t ++ [PSCmd.setAdvProp adapterName])

/-- setMellanoxPriorityVLANTagValueForV3: the legacy-generation convergence
action (adapter version 3 or less): resolve device id, then the driver
registry-key suffix, assemble the registry path, query the current value,
and on mismatch write the value and restart the adapter. -/
def setMellanoxPriorityVLANTagValueForV3 (E : PSExec) (adapterName : String) :
    Except String Unit × List PSCmd :=
  match E (cmdString PSCmd.getCimDeviceId) with
  | Except.error e =>
      (Except.error ("error while executing powershell command to get device id of "
          ++ adapterName ++ ": " ++ e),
       [PSCmd.getCimDeviceId])
  | Except.ok deviceid =>
      if deviceid = "" then
        (Except.error ("no network device found with " ++ mellanoxSearchString ++ " in description"),
         [PSCmd.getCimDeviceId])
      else
        match E (cmdString (PSCmd.getPnpDeviceProperty deviceid)) with
        | Except.error e =>
            (Except.error ("error while executing powershell command to get registry suffix of device id "
                ++ deviceid ++ ": " ++ e),
             [PSCmd.getCimDeviceId, PSCmd.getPnpDeviceProperty deviceid])
        | Except.ok registryKeySuffix =>
            match getMellanoxPriorityVLANTagValueForV3 E
                ( registryKeyPrefix ++ registryKeySuffix) adapterName with
            | (Except.error e, tq) =>
                (Except.error ("error while checking registry value for PriorityVLANTag for adapter: " ++ e),
                 [PSCmd.getCimDeviceId, PSCmd.getPnpDeviceProperty deviceid] ++ tq)
            | (Except.ok currentVLANTagValue, tq) =>
                if currentVLANTagValue = desiredRegValueForVLANTag then
                  (Except.ok (),
                   [PSCmd.getCimDeviceId, PSCmd.getPnpDeviceProperty deviceid] ++ tq)
                else
                  match E (cmdString (PSCmd.newItemProperty
                      ( registryKeyPrefix ++ registryKeySuffix))) with
                  | Except.error e =>
                      (Except.error ("error while executing powershell command to set Item property for device id  "
                          ++ deviceid ++ ": " ++ e),
                       [PSCmd.getCimDeviceId, PSCmd.getPnpDeviceProperty deviceid] ++ tq
                         ++ [PSCmd.newItemProperty ( registryKeyPrefix ++ registryKeySuffix)])
                  | Except.ok _ =>
                      match E (cmdString (PSCmd.restartNetAdapter adapterName)) with
                      | Except.error e =>
                          (Except.error ("error while executing powershell command to restart net adapter  "
                              ++ adapterName ++ ": " ++ e),
                           [PSCmd.getCimDeviceId, PSCmd.getPnpDeviceProperty deviceid] ++ tq
                             ++ [PSCmd.newItemProperty ( registryKeyPrefix ++ registryKeySuffix),
                                 PSCmd.restartNetAdapter adapterName])
                      | Except.ok _ =>
                          (Except.ok (),
                           [PSCmd.getCimDeviceId, PSCmd.getPnpDeviceProperty deviceid] ++ tq
                             ++ [PSCmd.newItemProperty ( registryKeyPrefix ++ registryKeySuffix),
                                 PSCmd.restartNetAdapter adapterName])

/-- SetMellanoxPriorityVLANTag: probe whether the adapter has the
PriorityVLANTag advanced property (generation classifier) and dispatch to
the version-4 or version-3 convergence action. -/
def SetMellanoxPriorityVLANTag (E : PSExec) (adapterName : String) :
    Except String Unit × List PSCmd :=
  match E (cmdString (PSCmd.getAdvProp adapterName)) with
  | Except.error e =>
      (Except.error ("error while executing powershell command to get VLAN Tag advance property of "
          ++ adapterName ++ ": " ++ e),
       [PSCmd.getAdvProp adapterName])
  | Except.ok adapterNameWithVLANTag =>
      if adapterNameWithVLANTag ≠ "" then
        match setMellanoxPriorityVLANTagValueForV4 E adapterNameWithVLANTag with
        | (r, t) => (r, PSCmd.getAdvProp adapterName :: t)
      else
        match setMellanoxPriorityVLANTagValueForV3 E adapterName with
        | (r, t) => (r, PSCmd.getAdvProp adapterName :: t)

/-- The body of one tick of the monitor loop: resolve the adapter name (the
empty string when resolution failed — errors are only logged), then run
SetMellanoxPriorityVLANTag on it; the tick's errors are logged, never
propagated, so the tick's observable outcome is the commands it issued. -/
def monitorTick (E : PSExec) : List PSCmd :=
  match getMellanoxAdapterName E with
  | (r, t1) =>
      match SetMellanoxPriorityVLANTag E
          (match r with | Except.ok n => n | Except.error _ => "") with
      | (_, t2) => t1 ++ t2

/-- One resolution of the monitor loop's select: either the cancellation
signal is done or the ticker fires. -/
inductive LoopEvent where
  | done
  | tick
  deriving DecidableEq

/-- MonitorAndSetMellanoxRegKeyPriorityVLANTag's loop, driven by the
sequence of select resolutions: a done event returns, a tick event runs one
reconciliation cycle (whose command trace is recorded) and continues. -/
def monitorLoop (E : PSExec) : List LoopEvent → List (List PSCmd)
  | [] => []
  | LoopEvent.done :: _ => []
  | LoopEvent.tick :: rest => monitorTick E :: monitorLoop E rest

/-- The tick interval chosen by MonitorAndSetMellanoxRegKeyPriorityVLANTag
from the intervalSecs argument, in nanoseconds (Go time.Duration). -/
def monitorInterval (intervalSecs : Int) : Int :=
  if intervalSecs > 0 then intervalSecs * oneSecond else defaultMellanoxMonitorInterval

/-- SetSdnRemoteArpMacAddress, with the process-wide flag
sdnRemoteArpMacAddressSet passed and returned explicitly; the result is
(error-or-success, flag afterwards, commands issued). -/
def SetSdnRemoteArpMacAddress (E : PSExec) (sdnRemoteArpMacAddressSet : Bool) :
    Except String Unit × Bool × List PSCmd :=
  if sdnRemoteArpMacAddressSet then
    (Except.ok (), sdnRemoteArpMacAddressSet, [])
  else
    match E (cmdString PSCmd.getSdnRemoteArpMacAddr) with
    | Except.error e => (Except.error e, sdnRemoteArpMacAddressSet, [PSCmd.getSdnRemoteArpMacAddr])
    | Except.ok result =>
        if result ≠ SDNRemoteArpMacAddress then
          match E (cmdString PSCmd.setSdnRemoteArpMacAddr) with
          | Except.error e =>
              (Except.error e, sdnRemoteArpMacAddressSet,
               [PSCmd.getSdnRemoteArpMacAddr, PSCmd.setSdnRemoteArpMacAddr])
          | Except.ok _ =>
              match E (cmdString PSCmd.restartHnsService) with
              | Except.error e =>
                  (Except.error e, sdnRemoteArpMacAddressSet,
                   [PSCmd.getSdnRemoteArpMacAddr, PSCmd.setSdnRemoteArpMacAddr,
                    PSCmd.restartHnsService])
              | Except.ok _ =>
                  (Except.ok (), true,
                   [PSCmd.getSdnRemoteArpMacAddr, PSCmd.setSdnRemoteArpMacAddr,
                    PSCmd.restartHnsService])
        else
          (Except.ok (), true, [PSCmd.getSdnRemoteArpMacAddr])

/-- Outcome of running one external process: an optional run error
(err.Error() when cmd.Run failed) plus the captured stdout and stderr. -/
structure CmdOutcome where
  runErr : Option String
  stdout : String
  stderr : String

/-- ExecutePowershellCommand: look up powershell.exe (psPath is none when
exec.LookPath failed), run the command, and return ("", error embedding
stderr) on failure or (stdout trimmed of surrounding whitespace, no error)
on success. -/
def ExecutePowershellCommand (psPath : Option String) (sys : String → CmdOutcome)
    (command : String) : String × Option String :=
  match psPath with
  | none => ("", some ("Failed to find powershell executable"))
  | some _ =>
      match sys command with
      | o =>
          match o.runErr with
          | some e => ("", some (e ++ ":" ++ o.stderr))
          | none => (o.stdout.trim, none)

/-- execClient.ExecuteCommand: run the command under cmd /c and return
("", error embedding stderr) on failure or the raw, untrimmed stdout on
success. -/
def ExecuteCommand (sys : String → CmdOutcome) (command : String) :
    String × Option String :=
  match sys command with
  | o =>
      match o.runErr with
      | some e => ("", some (e ++ ":" ++ o.stderr))
      | none => (o.stdout, none)

/-- Commands belonging to the direct-property (version 4) convergence action. -/
def PSCmd.isV4Cmd : PSCmd → Bool
  | PSCmd.getAdvPropValue _ => true
  | PSCmd.setAdvProp _ => true
  | _ => false

/-- Commands belonging to the legacy (version 3) convergence action. -/
def PSCmd.isV3Cmd : PSCmd → Bool
  | PSCmd.getCimDeviceId => true
  | PSCmd.getPnpDeviceProperty _ => true
  | PSCmd.getItemProperty _ => true
  | PSCmd.newItemProperty _ => true
  | PSCmd.restartNetAdapter _ => true
  | _ => false

/-- The trace of the V3 value query is always exactly the one
Get-ItemProperty command at the given path. -/
lemma getV3_trace (E : PSExec) (p n : String) :
    (getMellanoxPriorityVLANTagValueForV3 E p n).2 = [PSCmd.getItemProperty p] := by
  unfold getMellanoxPriorityVLANTagValueForV3
  cases h : E (cmdString (PSCmd.getItemProperty p)) with
  | error e => simp
  | ok v => cases hv : atoi v <;> simp [hv]

/-- The direct-property convergence action issues either just the value
query, or the value query followed by the one write. -/
lemma setV4_trace_shape (E : PSExec) (n : String) :
    (setMellanoxPriorityVLANTagValueForV4 E n).2 = [PSCmd.getAdvPropValue n] ∨
    (setMellanoxPriorityVLANTagValueForV4 E n).2 =
      [PSCmd.getAdvPropValue n, PSCmd.setAdvProp n] := by
  unfold setMellanoxPriorityVLANTagValueForV4 getMellanoxPriorityVLANTagValueForV4
  cases h : E (cmdString (PSCmd.getAdvPropValue n)) with
  | error e => simp
  | ok v =>
      cases hv : atoi v with
      | none => simp [hv]
      | some k =>
          by_cases hk : k = desiredRegValueForVLANTag
          · simp [hv, hk]
          · cases hw : E (cmdString (PSCmd.setAdvProp n)) <;> simp [hv, hk, hw]

/-- Every command the legacy convergence action issues is one of the five
legacy-step commands. -/
lemma setV3_trace_shape (E : PSExec) (n : String) :
    ∀ c ∈ (setMellanoxPriorityVLANTagValueForV3 E n).2,
      c = PSCmd.getCimDeviceId ∨ (∃ d, c = PSCmd.getPnpDeviceProperty d) ∨
      (∃ p, c = PSCmd.getItemProperty p) ∨ (∃ p, c = PSCmd.newItemProperty p) ∨
      c = PSCmd.restartNetAdapter n := by
  unfold setMellanoxPriorityVLANTagValueForV3
  cases hd : E (cmdString PSCmd.getCimDeviceId) with
  | error e => simp
  | ok d =>
      by_cases hde : d = ""
      · simp [hde]
      · simp only [hde, if_false]
        cases hs : E (cmdString (PSCmd.getPnpDeviceProperty d)) with
        | error e => simp
        | ok s =>
            dsimp only
            rcases hq : getMellanoxPriorityVLANTagValueForV3 E ( registryKeyPrefix ++ s) n
              with ⟨r, tq⟩
            have ht : tq = [PSCmd.getItemProperty ( registryKeyPrefix ++ s)] := by
              have h0 := getV3_trace E ( registryKeyPrefix ++ s) n
              rw [hq] at h0
              exact h0
            subst ht
            cases r with
            | error e =>
                intro c hc
                simp at hc
                rcases hc with rfl | rfl | rfl <;> simp
            | ok v =>
                by_cases hv : v = desiredRegValueForVLANTag
                · intro c hc
                  simp [hv] at hc
                  rcases hc with rfl | rfl | rfl <;> simp
                · cases hw : E (cmdString (PSCmd.newItemProperty ( registryKeyPrefix ++ s))) with
                  | error e =>
                      intro c hc
                      simp [hv] at hc
                      rcases hc with rfl | rfl | rfl | rfl <;> simp
                  | ok w =>
                      cases hr : E (cmdString (PSCmd.restartNetAdapter n)) with
                      | error e =>
                          intro c hc
                          simp [hv] at hc
                          rcases hc with rfl | rfl | rfl | rfl | rfl <;> simp
                      | ok u =>
                          intro c hc
                          simp [hv] at hc
                          rcases hc with rfl | rfl | rfl | rfl | rfl <;> simp

/-- Claim C8: a positive intervalSecs override sets the tick interval to that
many seconds; a zero or negative override is ignored and the default 30
second interval is used. -/
theorem monitor_interval_override (intervalSecs : Int) :
    (0 < intervalSecs → monitorInterval intervalSecs = intervalSecs * oneSecond) ∧
    (intervalSecs ≤ 0 → monitorInterval intervalSecs = 30 * oneSecond) := by
  constructor
  · intro h
    simp [monitorInterval, h]
  · intro h
    have : ¬ intervalSecs > 0 := by omega
    simp [monitorInterval, this, defaultMellanoxMonitorInterval]

/-- Witness for C8 at the concrete overrides 5 and 0. -/
theorem monitor_interval_override_witness :
    monitorInterval 5 = 5 * oneSecond ∧ monitorInterval 0 = 30 * oneSecond :=
  ⟨(monitor_interval_override 5).1 (by decide), (monitor_interval_override 0).2 (by decide)⟩

/-- Claim C10: ExecutePowershellCommand returns the empty string whenever it
returns an error, and on success returns stdout trimmed of surrounding
whitespace; execClient.ExecuteCommand returns stdout untrimmed on success. -/
theorem executor_output_contract (psPath : Option String)
    (sys : String → CmdOutcome) (command : String) :
    (∀ e, (ExecutePowershellCommand psPath sys command).2 = some e →
      (ExecutePowershellCommand psPath sys command).1 = "") ∧
    ((ExecutePowershellCommand psPath sys command).2 = none →
      (ExecutePowershellCommand psPath sys command).1 = (sys command).stdout.trim) ∧
    ((ExecuteCommand sys command).2 = none →
      (ExecuteCommand sys command).1 = (sys command).stdout) := by
  refine ⟨?_, ?_, ?_⟩
  · unfold ExecutePowershellCommand
    cases psPath with
    | none => simp
    | some p => cases h : (sys command).runErr <;> simp [h]
  · unfold ExecutePowershellCommand
    cases psPath with
    | none => simp
    | some p => cases h : (sys command).runErr <;> simp [h]
  · unfold ExecuteCommand
    cases h : (sys command).runErr <;> simp [h]

/-- A concrete system outcome for the C10 witness: success with padded stdout. -/
def paddedOutcomeSys : String → CmdOutcome :=
  fun _ => { runErr := none, stdout := "  out 1  ", stderr := "" }

/-- Witness for C10 at a concrete system outcome with padded stdout. -/
theorem executor_output_contract_witness :
    (ExecutePowershellCommand (some ("C:\\ps.exe")) paddedOutcomeSys ("dir")).1 =
      (paddedOutcomeSys ("dir")).stdout.trim ∧
    (ExecuteCommand paddedOutcomeSys ("dir")).1 = (paddedOutcomeSys ("dir")).stdout :=
  ⟨(executor_output_contract (some ("C:\\ps.exe")) paddedOutcomeSys ("dir")).2.1 rfl,
   (executor_output_contract (some ("C:\\ps.exe")) paddedOutcomeSys ("dir")).2.2 rfl⟩

/-- Claim C6: once the cancellation signal is done the monitor loop returns
and performs no further reconciliation cycles (cancellation is observed
between cycles), and the outcome of any cycle — in particular an error,
which is only logged — never terminates the loop: the cycles performed do
not depend on the executor's answers. -/
theorem monitor_cancellation (E F : PSExec) (es1 es2 : List LoopEvent) :
    monitorLoop E (LoopEvent.done :: es2) = [] ∧
    monitorLoop E (es1 ++ LoopEvent.done :: es2) = monitorLoop E es1 ∧
    (monitorLoop E es1).length = (monitorLoop F es1).length ∧
    monitorLoop E (LoopEvent.tick :: es2) = monitorTick E :: monitorLoop E es2 := by
  refine ⟨rfl, ?_, ?_, rfl⟩
  · induction es1 with
    | nil => rfl
    | cons e rest ih =>
        cases e with
        | done => rfl
        | tick => simpa [monitorLoop] using ih
  · induction es1 with
    | nil => rfl
    | cons e rest ih =>
        cases e with
        | done => rfl
        | tick => simpa [monitorLoop] using ih

/-- The dispatch always issues the generation probe first, whatever else
happens afterwards. -/
lemma setTag_trace_head (E : PSExec) (n : String) :
    ∃ r t, SetMellanoxPriorityVLANTag E n = (r, PSCmd.getAdvProp n :: t) := by
  unfold SetMellanoxPriorityVLANTag
  cases hp : E (cmdString (PSCmd.getAdvProp n)) with
  | error e => exact ⟨_, [], rfl⟩
  | ok s =>
      dsimp only
      by_cases hs : s ≠ ""
      · rw [if_pos hs]
        rcases hv : setMellanoxPriorityVLANTagValueForV4 E s with ⟨r, t⟩
        exact ⟨r, t, rfl⟩
      · rw [if_neg hs]
        rcases hv : setMellanoxPriorityVLANTagValueForV3 E n with ⟨r, t⟩
        exact ⟨r, t, rfl⟩

/-- An executor whose every query answers "3": a present adapter, a present
device, a current value already equal to the desired one. -/
def allThreeExec : PSExec := fun _ => Except.ok ("3")

/-- An executor whose every query succeeds with the empty output. -/
def allEmptyExec : PSExec := fun _ => Except.ok ("")

/-- Claim C3: the direct-property convergence action first queries the
current value; when it equals the desired value the action returns success
having issued no write and no restart; otherwise it issues exactly one
write and returns with no re-verification query and no restart — so a
second invocation after the write took effect issues no further write. -/
theorem direct_property_convergence (E : PSExec) (n v : String)
    (hq : E (cmdString (PSCmd.getAdvPropValue n)) = Except.ok v) :
    (atoi v = some desiredRegValueForVLANTag →
      setMellanoxPriorityVLANTagValueForV4 E n =
        (Except.ok (), [PSCmd.getAdvPropValue n])) ∧
    (∀ k : Int, atoi v = some k → k ≠ desiredRegValueForVLANTag →
      (setMellanoxPriorityVLANTagValueForV4 E n).2 =
        [PSCmd.getAdvPropValue n, PSCmd.setAdvProp n]) := by
  constructor
  · intro hv
    unfold setMellanoxPriorityVLANTagValueForV4 getMellanoxPriorityVLANTagValueForV4
    simp [hq, hv]
  · intro k hk hne
    unfold setMellanoxPriorityVLANTagValueForV4 getMellanoxPriorityVLANTagValueForV4
    cases hw : E (cmdString (PSCmd.setAdvProp n)) <;> simp [hq, hk, hne, hw]

/-- Witness for C3: with every query answering "3" the action is a no-op
that issued only the value query. -/
theorem direct_property_convergence_witness :
    setMellanoxPriorityVLANTagValueForV4 allThreeExec ("Ethernet 4") =
      (Except.ok (), [PSCmd.getAdvPropValue ("Ethernet 4")]) :=
  (direct_property_convergence allThreeExec ("Ethernet 4") ("3") rfl).1 (by decide)

/-- Claim C2: the legacy convergence action issues no restart when the
queried current registry value equals the desired value, and every restart
it does issue comes after a confirmed mismatch and a successful write. -/
theorem legacy_no_false_restart (E : PSExec) (n : String) :
    (∀ d s v, E (cmdString PSCmd.getCimDeviceId) = Except.ok d → d ≠ "" →
      E (cmdString (PSCmd.getPnpDeviceProperty d)) = Except.ok s →
      E (cmdString (PSCmd.getItemProperty ( registryKeyPrefix ++ s))) = Except.ok v →
      atoi v = some desiredRegValueForVLANTag →
      setMellanoxPriorityVLANTagValueForV3 E n =
        (Except.ok (),
         [PSCmd.getCimDeviceId, PSCmd.getPnpDeviceProperty d,
          PSCmd.getItemProperty ( registryKeyPrefix ++ s)])) ∧
    (∀ a, PSCmd.restartNetAdapter a ∈ (setMellanoxPriorityVLANTagValueForV3 E n).2 →
      ∃ d s v k w, E (cmdString PSCmd.getCimDeviceId) = Except.ok d ∧ d ≠ "" ∧
        E (cmdString (PSCmd.getPnpDeviceProperty d)) = Except.ok s ∧
        E (cmdString (PSCmd.getItemProperty ( registryKeyPrefix ++ s))) = Except.ok v ∧
        atoi v = some k ∧ k ≠ desiredRegValueForVLANTag ∧
        E (cmdString (PSCmd.newItemProperty ( registryKeyPrefix ++ s))) = Except.ok w) := by
  constructor
  · intro d s v hd hde hs hv h3
    unfold setMellanoxPriorityVLANTagValueForV3 getMellanoxPriorityVLANTagValueForV3
    simp [hd, hde, hs, hv, h3]
  · intro a ha
    unfold setMellanoxPriorityVLANTagValueForV3 getMellanoxPriorityVLANTagValueForV3 at ha
    cases hd : E (cmdString PSCmd.getCimDeviceId) with
    | error e => rw [hd] at ha; simp at ha
    | ok d =>
        rw [hd] at ha
        by_cases hde : d = ""
        · simp [hde] at ha
        · simp only [hde, if_false] at ha
          cases hs : E (cmdString (PSCmd.getPnpDeviceProperty d)) with
          | error e => rw [hs] at ha; simp at ha
          | ok s =>
              rw [hs] at ha
              dsimp only at ha
              cases hv : E (cmdString (PSCmd.getItemProperty ( registryKeyPrefix ++ s))) with
              | error e => rw [hv] at ha; simp at ha
              | ok v =>
                  rw [hv] at ha
                  cases hk : atoi v with
                  | none => simp [hk] at ha
                  | some k =>
                      simp only [hk] at ha
                      by_cases hkd : k = desiredRegValueForVLANTag
                      · simp [hkd] at ha
                      · simp only [hkd, if_false] at ha
                        cases hw : E (cmdString (PSCmd.newItemProperty ( registryKeyPrefix ++ s))) with
                        | error e => rw [hw] at ha; simp at ha
                        | ok w =>
                            exact ⟨d, s, v, k, w, rfl, hde, hs, hv, hk, hkd, hw⟩

/-- Witness for C2: with every query answering "3" the legacy action resolves
device "3", suffix "3", reads the desired value and stops with no write and
no restart. -/
theorem legacy_no_false_restart_witness :
    setMellanoxPriorityVLANTagValueForV3 allThreeExec ("Ethernet 4") =
      (Except.ok (),
       [PSCmd.getCimDeviceId, PSCmd.getPnpDeviceProperty ("3"),
        PSCmd.getItemProperty ( registryKeyPrefix ++ "3")]) :=
  (legacy_no_false_restart allThreeExec ("Ethernet 4")).1 ("3") ("3") ("3")
    rfl (by decide) rfl rfl (by rfl)

/-- Claim C9: when the legacy path's query of the current value at the
assembled registry path fails, the call returns an error having issued no
creating write and no adapter restart. -/
theorem legacy_query_failure_no_write (E : PSExec) (n d s e : String)
    (hd : E (cmdString PSCmd.getCimDeviceId) = Except.ok d) (hde : d ≠ "")
    (hs : E (cmdString (PSCmd.getPnpDeviceProperty d)) = Except.ok s)
    (hq : (getMellanoxPriorityVLANTagValueForV3 E ( registryKeyPrefix ++ s) n).1 =
      Except.error e) :
    setMellanoxPriorityVLANTagValueForV3 E n =
      (Except.error ("error while checking registry value for PriorityVLANTag for adapter: " ++ e),
       [PSCmd.getCimDeviceId, PSCmd.getPnpDeviceProperty d,
        PSCmd.getItemProperty ( registryKeyPrefix ++ s)]) := by
  have ht := getV3_trace E ( registryKeyPrefix ++ s) n
  rcases hp : getMellanoxPriorityVLANTagValueForV3 E ( registryKeyPrefix ++ s) n with ⟨r, tq⟩
  rw [hp] at ht hq
  dsimp only at ht hq
  subst ht
  subst hq
  unfold setMellanoxPriorityVLANTagValueForV3
  simp [hd, hde, hs, hp]

/-- The executor for the C9 witness: a device and driver suffix resolve, but
the registry value query fails (the key does not exist at the path). -/
def missingKeyExec : PSExec := fun c =>
  if c = cmdString PSCmd.getCimDeviceId then Except.ok ("DEV1")
  else if c = cmdString (PSCmd.getPnpDeviceProperty ("DEV1")) then Except.ok ("0001")
  else Except.error ("ItemNotFoundException")

set_option maxRecDepth 100000 in
/-- Witness for C9 at the missing-key executor. -/
theorem legacy_query_failure_no_write_witness :
    setMellanoxPriorityVLANTagValueForV3 missingKeyExec ("Ethernet 4") =
      (Except.error ("error while checking registry value for PriorityVLANTag for adapter: "
          ++ "ItemNotFoundException"),
       [PSCmd.getCimDeviceId, PSCmd.getPnpDeviceProperty ("DEV1"),
        PSCmd.getItemProperty ( registryKeyPrefix ++ "0001")]) :=
  legacy_query_failure_no_write missingKeyExec ("Ethernet 4") ("DEV1") ("0001")
    ("ItemNotFoundException") (by rfl) (by decide) (by rfl) (by rfl)

/-- Executor refuting C4 as stated: device id "DEV1" resolves, the driver
suffix query succeeds with the empty string, and every other query answers
"3". -/
def emptySuffixExec : PSExec := fun c =>
  if c = cmdString PSCmd.getCimDeviceId then Except.ok ("DEV1")
  else if c = cmdString (PSCmd.getPnpDeviceProperty ("DEV1")) then Except.ok ("")
  else Except.ok ("3")

set_option maxRecDepth 100000 in
/-- Counterexample to C4 as stated: with an empty (non-error) driver-suffix
result the legacy chain does not abort with a resolution error — it
assembles the bare-prefix registry path, queries it, and here returns
success. -/
theorem legacy_resolution_chain_counterexample :
    emptySuffixExec (cmdString (PSCmd.getPnpDeviceProperty ("DEV1"))) = Except.ok ("") ∧
    setMellanoxPriorityVLANTagValueForV3 emptySuffixExec ("Ethernet 4") =
      (Except.ok (),
       [PSCmd.getCimDeviceId, PSCmd.getPnpDeviceProperty ("DEV1"),
        PSCmd.getItemProperty ( registryKeyPrefix ++ "")]) := by
  constructor
  · rfl
  · rfl

/-- Claim C4 (amended): an empty device-ID lookup result returns a not-found
error with nothing further attempted, and an executor error in the
driver-suffix lookup aborts the chain before the registry path is used; an
empty (non-error) driver-suffix result, however, does not abort — the path
is assembled as the bare prefix and the chain proceeds to query it. -/
theorem legacy_resolution_chain (E : PSExec) (n : String) :
    (E (cmdString PSCmd.getCimDeviceId) = Except.ok ("") →
      setMellanoxPriorityVLANTagValueForV3 E n =
        (Except.error ("no network device found with " ++ mellanoxSearchString
            ++ " in description"),
         [PSCmd.getCimDeviceId])) ∧
    (∀ d e, E (cmdString PSCmd.getCimDeviceId) = Except.ok d → d ≠ "" →
      E (cmdString (PSCmd.getPnpDeviceProperty d)) = Except.error e →
      setMellanoxPriorityVLANTagValueForV3 E n =
        (Except.error ("error while executing powershell command to get registry suffix of device id "
            ++ d ++ ": " ++ e),
         [PSCmd.getCimDeviceId, PSCmd.getPnpDeviceProperty d])) ∧
    (∀ d, E (cmdString PSCmd.getCimDeviceId) = Except.ok d → d ≠ "" →
      E (cmdString (PSCmd.getPnpDeviceProperty d)) = Except.ok ("") →
      PSCmd.getItemProperty ( registryKeyPrefix ++ "") ∈
        (setMellanoxPriorityVLANTagValueForV3 E n).2) := by
  refine ⟨?_, ?_, ?_⟩
  · intro hd
    unfold setMellanoxPriorityVLANTagValueForV3
    simp [hd]
  · intro d e hd hde hs
    unfold setMellanoxPriorityVLANTagValueForV3
    simp [hd, hde, hs]
  · intro d hd hde hs
    unfold setMellanoxPriorityVLANTagValueForV3
    rw [hd]
    simp only [hde, if_false]
    rw [hs]
    dsimp only
    have ht := getV3_trace E ( registryKeyPrefix ++ "") n
    rcases hp : getMellanoxPriorityVLANTagValueForV3 E ( registryKeyPrefix ++ "") n with ⟨r, tq⟩
    rw [hp] at ht
    dsimp only at ht
    subst ht
    cases r with
    | error e => simp
    | ok v =>
        by_cases hv : v = desiredRegValueForVLANTag
        · simp [hv]
        · cases hw : E (cmdString (PSCmd.newItemProperty ( registryKeyPrefix ++ ""))) with
          | error e => simp [hv]
          | ok w =>
              cases hr : E (cmdString (PSCmd.restartNetAdapter n)) <;> simp [hv]

set_option maxRecDepth 100000 in
/-- Witness for the amended C4: at the empty-suffix executor the chain
queries the bare-prefix registry path. -/
theorem legacy_resolution_chain_witness :
    PSCmd.getItemProperty ( registryKeyPrefix ++ "") ∈
      (setMellanoxPriorityVLANTagValueForV3 emptySuffixExec ("Ethernet 4")).2 :=
  (legacy_resolution_chain emptySuffixExec ("Ethernet 4")).2.2 ("DEV1")
    (by rfl) (by decide) (by rfl)

/-- Claim C7: the generation probe selects exactly one convergence action —
a non-empty probe output runs the direct-property action, whose commands
are all direct-property ones and none legacy; an empty probe output runs
the legacy action, whose commands are all legacy ones and none
direct-property. -/
theorem generation_exclusivity (E : PSExec) (n s : String)
    (hp : E (cmdString (PSCmd.getAdvProp n)) = Except.ok s) :
    (s ≠ "" →
      SetMellanoxPriorityVLANTag E n =
        ((setMellanoxPriorityVLANTagValueForV4 E s).1,
         PSCmd.getAdvProp n :: (setMellanoxPriorityVLANTagValueForV4 E s).2) ∧
      ∀ c ∈ (setMellanoxPriorityVLANTagValueForV4 E s).2,
        c.isV4Cmd = true ∧ c.isV3Cmd = false) ∧
    (s = "" →
      SetMellanoxPriorityVLANTag E n =
        ((setMellanoxPriorityVLANTagValueForV3 E n).1,
         PSCmd.getAdvProp n :: (setMellanoxPriorityVLANTagValueForV3 E n).2) ∧
      ∀ c ∈ (setMellanoxPriorityVLANTagValueForV3 E n).2,
        c.isV3Cmd = true ∧ c.isV4Cmd = false) := by
  constructor
  · intro hne
    constructor
    · unfold SetMellanoxPriorityVLANTag
      rw [hp]
      dsimp only
      rw [if_pos hne]
    · intro c hc
      rcases setV4_trace_shape E s with h | h <;> rw [h] at hc <;> simp at hc
      · subst hc; exact ⟨rfl, rfl⟩
      · rcases hc with rfl | rfl <;> exact ⟨rfl, rfl⟩
  · intro he
    constructor
    · unfold SetMellanoxPriorityVLANTag
      rw [hp, he]
      dsimp only
      rw [if_neg (by simp)]
    · intro c hc
      rcases setV3_trace_shape E n c hc with rfl | ⟨d, rfl⟩ | ⟨p, rfl⟩ | ⟨p, rfl⟩ | rfl <;>
        exact ⟨rfl, rfl⟩

/-- Witness for C7: the probe answers "3", so the dispatch runs the
direct-property action and its trace is that action's commands. -/
theorem generation_exclusivity_witness :
    SetMellanoxPriorityVLANTag allThreeExec ("Ethernet 4") =
      ((setMellanoxPriorityVLANTagValueForV4 allThreeExec ("3")).1,
       PSCmd.getAdvProp ("Ethernet 4") ::
         (setMellanoxPriorityVLANTagValueForV4 allThreeExec ("3")).2) ∧
    ∀ c ∈ (setMellanoxPriorityVLANTagValueForV4 allThreeExec ("3")).2,
      c.isV4Cmd = true ∧ c.isV3Cmd = false :=
  (generation_exclusivity allThreeExec ("Ethernet 4") ("3") rfl).1 (by decide)

/-- Claim C5: the one-shot ARP setter short-circuits to success when the
flag is set; otherwise it queries the current value, and when it already
equals the desired value it sets the flag without writing or restarting; on
a mismatch it writes, restarts the service and only then sets the flag; any
query, write or restart error returns immediately with the flag unset. -/
theorem sdn_remote_arp_one_shot (E : PSExec) (flag : Bool) :
    (flag = true → SetSdnRemoteArpMacAddress E flag = (Except.ok (), true, [])) ∧
    (flag = false →
      (∀ e, E (cmdString PSCmd.getSdnRemoteArpMacAddr) = Except.error e →
        SetSdnRemoteArpMacAddress E flag =
          (Except.error e, false, [PSCmd.getSdnRemoteArpMacAddr])) ∧
      (E (cmdString PSCmd.getSdnRemoteArpMacAddr) = Except.ok SDNRemoteArpMacAddress →
        SetSdnRemoteArpMacAddress E flag =
          (Except.ok (), true, [PSCmd.getSdnRemoteArpMacAddr])) ∧
      (∀ r, E (cmdString PSCmd.getSdnRemoteArpMacAddr) = Except.ok r →
        r ≠ SDNRemoteArpMacAddress →
        (∀ e, E (cmdString PSCmd.setSdnRemoteArpMacAddr) = Except.error e →
          SetSdnRemoteArpMacAddress E flag =
            (Except.error e, false,
             [PSCmd.getSdnRemoteArpMacAddr, PSCmd.setSdnRemoteArpMacAddr])) ∧
        (∀ w, E (cmdString PSCmd.setSdnRemoteArpMacAddr) = Except.ok w →
          (∀ e, E (cmdString PSCmd.restartHnsService) = Except.error e →
            SetSdnRemoteArpMacAddress E flag =
              (Except.error e, false,
               [PSCmd.getSdnRemoteArpMacAddr, PSCmd.setSdnRemoteArpMacAddr,
                PSCmd.restartHnsService])) ∧
          (∀ u, E (cmdString PSCmd.restartHnsService) = Except.ok u →
            SetSdnRemoteArpMacAddress E flag =
              (Except.ok (), true,
               [PSCmd.getSdnRemoteArpMacAddr, PSCmd.setSdnRemoteArpMacAddr,
                PSCmd.restartHnsService]))))) := by
  constructor
  · intro hf; subst hf; rfl
  · intro hf; subst hf
    refine ⟨?_, ?_, ?_⟩
    · intro e he
      unfold SetSdnRemoteArpMacAddress
      simp [he]
    · intro hok
      unfold SetSdnRemoteArpMacAddress
      simp [hok]
    · intro r hr hne
      refine ⟨?_, ?_⟩
      · intro e he
        unfold SetSdnRemoteArpMacAddress
        simp [hr, hne, he]
      · intro w hw
        refine ⟨?_, ?_⟩
        · intro e he
          unfold SetSdnRemoteArpMacAddress
          simp [hr, hne, hw, he]
        · intro u hu
          unfold SetSdnRemoteArpMacAddress
          simp [hr, hne, hw, hu]

/-- Witness for C5: flag unset, current value empty (a mismatch), write and
restart succeed — one full apply that ends with the flag set. -/
theorem sdn_remote_arp_one_shot_witness :
    SetSdnRemoteArpMacAddress allEmptyExec false =
      (Except.ok (), true,
       [PSCmd.getSdnRemoteArpMacAddr, PSCmd.setSdnRemoteArpMacAddr,
        PSCmd.restartHnsService]) :=
  ((((sdn_remote_arp_one_shot allEmptyExec false).2 rfl).2.2 ("") rfl
    (by decide)).2 ("") rfl).2 ("") rfl

/-- Counterexample to C1 as stated: on a tick whose adapter lookup returns
the empty string the cycle still issues two further commands — the
generation probe for the empty name and the legacy device-id lookup. -/
theorem monitor_no_adapter_counterexample :
    allEmptyExec (cmdString PSCmd.getNetAdapter) = Except.ok ("") ∧
    monitorTick allEmptyExec =
      [PSCmd.getNetAdapter, PSCmd.getAdvProp (""), PSCmd.getCimDeviceId] := by
  constructor
  · rfl
  · rfl

/-- Claim C1 (amended): on a tick where the adapter lookup returns the empty
string, the lookup yields the "no adapter found" error, which is only
logged; the cycle nevertheless calls the reconciler dispatch with the empty
adapter name — issuing at least the generation probe — and the loop
continues to the following events with no error surfaced to its caller. -/
theorem monitor_no_adapter_tick (E : PSExec) (es : List LoopEvent)
    (h : E (cmdString PSCmd.getNetAdapter) = Except.ok ("")) :
    (getMellanoxAdapterName E).1 =
      Except.error ("no network adapter found with " ++ mellanoxSearchString
        ++ " in description") ∧
    (∃ t, monitorTick E = PSCmd.getNetAdapter :: PSCmd.getAdvProp ("") :: t) ∧
    monitorLoop E (LoopEvent.tick :: es) = monitorTick E :: monitorLoop E es := by
  have hg : getMellanoxAdapterName E =
      (Except.error ("no network adapter found with " ++ mellanoxSearchString
        ++ " in description"), [PSCmd.getNetAdapter]) := by
    unfold getMellanoxAdapterName
    simp [h]
  refine ⟨by rw [hg], ?_, rfl⟩
  obtain ⟨r, t, hset⟩ := setTag_trace_head E ("")
  refine ⟨t, ?_⟩
  unfold monitorTick
  rw [hg]
  dsimp only
  rw [hset]
  rfl

/-- Witness for the amended C1 at the all-empty executor. -/
theorem monitor_no_adapter_tick_witness :
    (getMellanoxAdapterName allEmptyExec).1 =
      Except.error ("no network adapter found with " ++ mellanoxSearchString
        ++ " in description") ∧
    (∃ t, monitorTick allEmptyExec =
      PSCmd.getNetAdapter :: PSCmd.getAdvProp ("") :: t) ∧
    monitorLoop allEmptyExec [LoopEvent.tick] =
      monitorTick allEmptyExec :: monitorLoop allEmptyExec [] :=
  monitor_no_adapter_tick allEmptyExec [] rfl

end AzureCN
